import Mathlib

/-!
Shallow embedding of the `Configuration` class of
e-mobility-charging-stations-simulator: a process-wide, lazily loaded,
hot-reloadable configuration store with typed, defaulted section accessors.
The TypeScript source is the second document concatenated into
src/ui/web/package.json (lines 67-509); every definition below is translated
from it.  The `Constants` and `WorkerConstants` modules it imports are not
part of this snapshot, so their numeric/string constants are modelled from
the spec (marked in their doc comments); their concrete values are
immaterial to the theorems.  Console/chalk output is modelled as returned
diagnostic or log lists where a claim depends on it.
-/

namespace Configuration

/-- Application protocol selector for the UI server (`ApplicationProtocol`:
WS or WSS). -/
inductive ApplicationProtocol where
  | ws
  | wss
deriving DecidableEq, Repr

/-- Storage backend type for the performance recorder (`StorageType`). -/
inductive StorageType where
  | jsonFile
  | sqlite
  | mongoDB
deriving DecidableEq, Repr

/-- Worker process model (`WorkerProcessType`). -/
inductive WorkerProcessType where
  | workerSet
  | staticPool
  | dynamicPool
deriving DecidableEq, Repr

/-- Worker pool choice strategy (`WorkerChoiceStrategies`, from poolifier). -/
inductive WorkerChoiceStrategy where
  | roundRobin
  | leastUsed
deriving DecidableEq, Repr

/-- A JavaScript number that may be NaN: `parseInt(undefined)` yields NaN in
`getUIServer`'s cloud-environment branch. -/
inductive JsNumber where
  | num (n : Nat)
  | nan
deriving DecidableEq, Repr

/-- A user-supplied storage URI as parsed by `new URL(...)` (scheme, host
and path components); the URL parser is an external library. -/
structure Uri where
  scheme : String
  host : String
  path : String
deriving DecidableEq, Repr

/-- Render a parsed URI back to its verbatim string form. -/
def renderUri (u : Uri) : String := u.scheme ++ "://" ++ u.host ++ u.path

/-- The `options` sub-object of the `uiServer` key as it may appear in the
configuration document: every field optional (absent means the key is not in
the JSON). -/
structure UIServerOptionsSection where
  host : Option String
  port : Option Nat
deriving DecidableEq, Repr

/-- The `uiServer` key of the configuration document: every field optional. -/
structure UIServerSection where
  enabled : Option Bool
  protocol : Option ApplicationProtocol
  options : Option UIServerOptionsSection
deriving DecidableEq, Repr

/-- The `performanceStorage` key of the configuration document: every field
optional. -/
structure StorageSection where
  enabled : Option Bool
  storageType : Option StorageType
  uri : Option Uri
deriving DecidableEq, Repr

/-- The `worker` key of the configuration document: every field optional. -/
structure WorkerSection where
  processType : Option WorkerProcessType
  startDelay : Option Nat
  elementsPerWorker : Option Nat
  elementStartDelay : Option Nat
  poolMinSize : Option Nat
  poolMaxSize : Option Nat
  poolStrategy : Option WorkerChoiceStrategy
deriving DecidableEq, Repr

/-- A station template URL entry (`StationTemplateUrl`): a template file,
the station count, and the deprecated per-entry `numberOfStation` key whose
presence triggers a per-element deprecation warning in
`getStationTemplateUrls`. -/
structure StationTemplateUrl where
  file : String
  numberOfStations : Option Nat
  numberOfStation : Option Nat
deriving DecidableEq, Repr

/-- The parsed configuration document (`ConfigurationData`), restricted to
the keys the embedded accessors read.  Both the canonical
`stationTemplateUrls` key and its deprecated pluralized alias
`stationTemplateURLs` are representable, as are the deprecated top-level
worker keys read by `getWorker`. -/
structure ConfigurationData where
  uiServer : Option UIServerSection
  performanceStorage : Option StorageSection
  stationTemplateUrls : Option (List StationTemplateUrl)
  stationTemplateURLs : Option (List StationTemplateUrl)
  worker : Option WorkerSection
  workerProcess : Option WorkerProcessType
  workerStartDelay : Option Nat
  chargingStationsPerWorker : Option Nat
  elementStartDelay : Option Nat
  workerPoolMinSize : Option Nat
  workerPoolMaxSize : Option Nat
  workerPoolStrategy : Option WorkerChoiceStrategy
  logMaxSize : Option Nat
  logMaxFiles : Option Nat
deriving DecidableEq, Repr

/-- The empty configuration document (no key present). -/
def emptyConfigurationData : ConfigurationData :=
  { uiServer := none
    performanceStorage := none
    stationTemplateUrls := none
    stationTemplateURLs := none
    worker := none
    workerProcess := none
    workerStartDelay := none
    chargingStationsPerWorker := none
    elementStartDelay := none
    workerPoolMinSize := none
    workerPoolMaxSize := none
    workerPoolStrategy := none
    logMaxSize := none
    logMaxFiles := none }

/-! ### UI-server accessor (source lines 121-146) -/

/-- Modelled from the spec: `Constants.DEFAULT_UI_SERVER_HOST` (the
`Constants` module is not in this snapshot; the value is immaterial). -/
def defaultUIServerHost : String := "localhost"

/-- Modelled from the spec: `Constants.DEFAULT_UI_SERVER_PORT` (the
`Constants` module is not in this snapshot; the value is immaterial). -/
def defaultUIServerPort : Nat := 8080

/-- Runtime shape of the UI-server `options` object.  Both fields are
optional because the shallow merge can replace the object with one missing
either key, and the cloud-environment branch deletes `host`; `port` holds a
`JsNumber` because that branch assigns `parseInt(process.env.PORT)`. -/
structure UIServerOptions where
  host : Option String
  port : Option JsNumber
deriving DecidableEq, Repr

/-- Runtime shape of the UI-server configuration returned by
`getUIServer`. -/
structure UIServerConfiguration where
  enabled : Bool
  protocol : ApplicationProtocol
  options : UIServerOptions
deriving DecidableEq, Repr

/-- The hard-coded UI-server defaults built at the top of `getUIServer`:
disabled, WS, default host and port constants. -/
def defaultUIServerConfiguration : UIServerConfiguration :=
  { enabled := false
    protocol := .ws
    options := { host := some defaultUIServerHost
                 port := some (JsNumber.num defaultUIServerPort) } }

/-- The document's `options` sub-object as a runtime value: exactly the keys
the document supplies, nothing filled in. -/
def uiServerOptionsValue (o : UIServerOptionsSection) : UIServerOptions :=
  { host := o.host, port := o.port.map JsNumber.num }

/-- The `merge` call of `getUIServer` uses just-merge, a SHALLOW merge: each
top-level key present in the document's `uiServer` section overwrites the
corresponding key of the defaults wholesale — in particular a supplied
`options` object replaces the default `options` object entirely. -/
def shallowMergeUIServer (base : UIServerConfiguration) (s : UIServerSection) :
    UIServerConfiguration :=
  { enabled := s.enabled.getD base.enabled
    protocol := s.protocol.getD base.protocol
    options := match s.options with
      | some o => uiServerOptionsValue o
      | none => base.options }

/-- JavaScript `parseInt` applied to the `PORT` environment variable
(modelled as an optional numeric value): NaN when the variable is absent. -/
def parseIntEnv : Option Nat → JsNumber
  | some p => .num p
  | none => .nan

/-- Embeds `Configuration.getUIServer` (lines 121-146): build the defaults,
shallow-merge the document's `uiServer` section over them with just-merge
when the key is present, then, when `Utils.isCFEnvironment()` is true,
delete `options.host` and assign `options.port := parseInt(env.PORT)`.  The
`uiWebSocketServer` deprecation warning is a pure console side effect and is
omitted. -/
def getUIServer (d : ConfigurationData) (isCFEnvironment : Bool)
    (envPORT : Option Nat) : UIServerConfiguration :=
  let merged := match d.uiServer with
    | some s => shallowMergeUIServer defaultUIServerConfiguration s
    | none => defaultUIServerConfiguration
  if isCFEnvironment then
    { merged with options := { host := none, port := some (parseIntEnv envPORT) } }
  else merged

/-! ### Performance-storage accessor (source lines 148-168, 489-508) -/

/-- The fixed base directory of `buildPerformanceUriFilePath`:
`path.resolve(path.dirname(fileURLToPath(import.meta.url)), '../')`, the
component's install directory (a constant of the deployment; the concrete
value is immaterial). -/
def baseDirectory : String := "/opt/charging-stations-simulator/dist/.."

/-- Path normalization of Node's `path.join`/`path.resolve` on an absolute
result: drop empty and `.` segments, resolve `..` by popping. -/
def collapseDots (segs : List String) : List String :=
  segs.foldl
    (fun acc seg =>
      if seg = "" ∨ seg = "." then acc
      else if seg = ".." then acc.dropLast
      else acc ++ [seg])
    []

/-- Node's `path.join` for an absolute first argument: concatenate the
segments and normalize. -/
def joinPath (a b : String) : String :=
  "/" ++ String.intercalate "/" (collapseDots (a.splitOn "/" ++ b.splitOn "/"))

/-- Embeds `Configuration.buildPerformanceUriFilePath` (lines 503-508):
prefix `file://` to the argument joined to the fixed base directory. -/
def buildPerformanceUriFilePath (file : String) : String :=
  "file://" ++ joinPath baseDirectory file

/-- Modelled from the spec: `Constants.DEFAULT_PERFORMANCE_RECORDS_FILENAME`
(the `Constants` module is not in this snapshot; the value is
immaterial). -/
def defaultPerformanceRecordsFilename : String := "performanceRecords.json"

/-- Embeds the `StorageType.JSON_FILE` case of
`Configuration.getDefaultPerformanceStorageUri` (lines 489-501), the only
case `getPerformanceStorage` uses for its defaults. -/
def defaultStorageUri : String :=
  buildPerformanceUriFilePath defaultPerformanceRecordsFilename

/-- Runtime shape of the storage configuration returned by
`getPerformanceStorage`. -/
structure StorageConfiguration where
  enabled : Bool
  storageType : StorageType
  uri : String
deriving DecidableEq, Repr

/-- The hard-coded performance-storage defaults built at the top of
`getPerformanceStorage`: disabled, JSON-file, default URI. -/
def defaultStorageConfiguration : StorageConfiguration :=
  { enabled := false
    storageType := .jsonFile
    uri := defaultStorageUri }

/-- Embeds `Configuration.getPerformanceStorage` (lines 148-168): when the
`performanceStorage` key is present, spread (shallow-merge) the section over
the defaults, then — only when the RAW section `type` equals
`StorageType.JSON_FILE` and the section supplies a `uri` — overwrite the uri
with `buildPerformanceUriFilePath(new URL(uri).pathname)`.  The `URI`
deprecation warning is a pure console side effect and is omitted. -/
def getPerformanceStorage (d : ConfigurationData) : StorageConfiguration :=
  match d.performanceStorage with
  | none => defaultStorageConfiguration
  | some s =>
    let shallow : StorageConfiguration :=
      { enabled := s.enabled.getD defaultStorageConfiguration.enabled
        storageType := s.storageType.getD defaultStorageConfiguration.storageType
        uri := (s.uri.map renderUri).getD defaultStorageConfiguration.uri }
    match s.storageType, s.uri with
    | some StorageType.jsonFile, some u =>
      { shallow with uri := buildPerformanceUriFilePath u.path }
    | _, _ => shallow

/-! ### Logging accessors (source lines 324-336) -/

/-- Result of `getLogMaxFiles`/`getLogMaxSize`, whose TypeScript type is
`number | string | false | undefined`: the `&&` short-circuit returns
`false` when the tested key is absent, and an optional-chaining read of a
missing key yields `undefined`. -/
inductive LogSettingResult where
  | num (n : Nat)
  | boolFalse
  | undef
deriving DecidableEq, Repr

/-- Embeds `Configuration.getLogMaxFiles` (lines 324-329):
`hasOwnProp(config, 'logMaxFiles') && config?.logMaxFiles` — the document's
value when the `logMaxFiles` key is present, `false` otherwise. -/
def getLogMaxFiles (d : ConfigurationData) : LogSettingResult :=
  match d.logMaxFiles with
  | some v => .num v
  | none => .boolFalse

/-- Embeds `Configuration.getLogMaxSize` (lines 331-336):
`hasOwnProp(config, 'logMaxFiles') && config?.logMaxSize` — the tested key
is `logMaxFiles`, not `logMaxSize`, exactly as in the source: `false` when
`logMaxFiles` is absent, otherwise the document's `logMaxSize` value
(`undefined` when that key is missing). -/
def getLogMaxSize (d : ConfigurationData) : LogSettingResult :=
  if d.logMaxFiles.isSome then
    match d.logMaxSize with
    | some v => .num v
    | none => .undef
  else .boolFalse

/-! ### Worker accessor and pool predicates (source lines 217-299) -/

/-- Modelled from the spec: `WorkerConstants.DEFAULT_WORKER_START_DELAY`
(module not in this snapshot; value immaterial). -/
def defaultWorkerStartDelay : Nat := 500

/-- Modelled from the spec: `WorkerConstants.DEFAULT_ELEMENTS_PER_WORKER`
(module not in this snapshot; value immaterial). -/
def defaultElementsPerWorker : Nat := 1

/-- Modelled from the spec: `WorkerConstants.DEFAULT_ELEMENT_START_DELAY`
(module not in this snapshot; value immaterial). -/
def defaultElementStartDelay : Nat := 0

/-- Modelled from the spec: `WorkerConstants.DEFAULT_POOL_MIN_SIZE` (module
not in this snapshot; value immaterial). -/
def defaultPoolMinSize : Nat := 4

/-- Modelled from the spec: `WorkerConstants.DEFAULT_POOL_MAX_SIZE` (module
not in this snapshot; value immaterial). -/
def defaultPoolMaxSize : Nat := 16

/-- Runtime shape of the worker configuration returned by `getWorker`. -/
structure WorkerConfiguration where
  processType : WorkerProcessType
  startDelay : Nat
  elementsPerWorker : Nat
  elementStartDelay : Nat
  poolMinSize : Nat
  poolMaxSize : Nat
  poolStrategy : WorkerChoiceStrategy
deriving DecidableEq, Repr

/-- Embeds `Configuration.getWorker` (lines 217-289): build a base from the
deprecated top-level keys (`workerProcess`, `workerStartDelay`,
`chargingStationsPerWorker`, `elementStartDelay`, `workerPoolMinSize`,
`workerPoolMaxSize`, `workerPoolStrategy`) with the built-in constants as
fallbacks, then spread (shallow-merge) the `worker` section over it when
present.  The nine deprecation warnings are pure console side effects and
are omitted. -/
def getWorker (d : ConfigurationData) : WorkerConfiguration :=
  let base : WorkerConfiguration :=
    { processType := d.workerProcess.getD .workerSet
      startDelay := d.workerStartDelay.getD defaultWorkerStartDelay
      elementsPerWorker := d.chargingStationsPerWorker.getD defaultElementsPerWorker
      elementStartDelay := d.elementStartDelay.getD defaultElementStartDelay
      poolMinSize := d.workerPoolMinSize.getD defaultPoolMinSize
      poolMaxSize := d.workerPoolMaxSize.getD defaultPoolMaxSize
      poolStrategy := d.workerPoolStrategy.getD .roundRobin }
  match d.worker with
  | none => base
  | some s =>
    { processType := s.processType.getD base.processType
      startDelay := s.startDelay.getD base.startDelay
      elementsPerWorker := s.elementsPerWorker.getD base.elementsPerWorker
      elementStartDelay := s.elementStartDelay.getD base.elementStartDelay
      poolMinSize := s.poolMinSize.getD base.poolMinSize
      poolMaxSize := s.poolMaxSize.getD base.poolMaxSize
      poolStrategy := s.poolStrategy.getD base.poolStrategy }

/-- Embeds `Configuration.workerPoolInUse` (lines 291-295):
`[dynamicPool, staticPool].includes(getWorker().processType)`. -/
def workerPoolInUse (d : ConfigurationData) : Bool :=
  [WorkerProcessType.dynamicPool, WorkerProcessType.staticPool].contains
    (getWorker d).processType

/-- Embeds `Configuration.workerDynamicPoolInUse` (lines 297-299):
`getWorker().processType === dynamicPool`. -/
def workerDynamicPoolInUse (d : ConfigurationData) : Bool :=
  (getWorker d).processType == WorkerProcessType.dynamicPool

/-! ### Document loader (source lines 420-439, 466-487) -/

/-- Classified I/O error codes switched on by `handleFileException`
(lines 466-487): ENOENT, EEXIST, EACCES, and the default branch (which also
covers JSON parse failures, whose errors carry no code). -/
inductive FileErrorKind where
  | notFound
  | alreadyExists
  | accessDenied
  | other
deriving DecidableEq, Repr

/-- The outcome the file system and JSON parser present on one physical
read-and-parse attempt. -/
inductive LoadOutcome where
  | success (doc : ConfigurationData)
  | failure (e : FileErrorKind)
deriving DecidableEq, Repr

/-- The `fs.readFileSync` + `JSON.parse` step inside `getConfig`'s try
block — the store's only fallible load step, signalling failure by
throwing (`Except.error`). -/
def readConfigurationFile (io : LoadOutcome) : Except FileErrorKind ConfigurationData :=
  match io with
  | .success d => .ok d
  | .failure e => .error e

/-- Embeds `Configuration.handleFileException` (lines 466-487): the
classified warning message logged for a load failure; never throws. -/
def handleFileException : FileErrorKind → String
  | .notFound => "Configuration file not found:"
  | .alreadyExists => "Configuration file already exists:"
  | .accessDenied => "Configuration file access denied:"
  | .other => "Configuration file error:"

/-- Embeds the value behaviour of `Configuration.getConfig` (lines
420-439): return the cached document when present; otherwise try the
physical load; the catch handler passes the failure to
`handleFileException`, which logs the classified message (the returned
list) and does not rethrow, so the document stays null.  The watcher-setup
side effect of the same function is embedded in `applyAccess` below. -/
def getConfig (cache : Option ConfigurationData) (io : LoadOutcome) :
    Option ConfigurationData × List String :=
  match cache with
  | some d => (some d, [])
  | none =>
    match readConfigurationFile io with
    | .ok d => (some d, [])
    | .error e => (none, [handleFileException e])

/-! ### Station-template-URLs accessor (source lines 192-215, 452-464) -/

/-- A deprecation diagnostic line: the deprecated key, the containing
section (if any), and the guidance text. -/
structure Diagnostic where
  key : String
  sectionName : Option String
  guidance : Option String
deriving DecidableEq, Repr

/-- The diagnostic emitted by
`warnDeprecatedConfigurationKey('stationTemplateURLs', undefined, ...)`
when the legacy key is present. -/
def legacyStationTemplateUrlsDiagnostic : Diagnostic :=
  { key := "stationTemplateURLs"
    sectionName := none
    guidance := some "Use stationTemplateUrls instead" }

/-- The per-element diagnostics of the `forEach` in
`getStationTemplateUrls`: one `numberOfStation` deprecation line per entry
that carries the deprecated key. -/
def stationTemplateUrlDiagnostics (xs : List StationTemplateUrl) : List Diagnostic :=
  (xs.filter (fun u => u.numberOfStation.isSome)).map
    (fun u =>
      { key := "numberOfStation"
        sectionName := none
        guidance := some ("template file " ++ u.file) })

/-- Embeds lines 198-201 of `getStationTemplateUrls`:
`!isUndefined(config['stationTemplateURLs']) &&
 (config.stationTemplateUrls = config['stationTemplateURLs'])` — whenever
the legacy key is defined its value is assigned to the canonical key,
overwriting any present canonical value; there is no canonical-key-absent
guard. -/
def migrateStationTemplateUrls (d : ConfigurationData) : ConfigurationData :=
  match d.stationTemplateURLs with
  | some legacy => { d with stationTemplateUrls := some legacy }
  | none => d

/-- A thrown JavaScript error value. -/
inductive JsError where
  | typeError (msg : String)
deriving DecidableEq, Repr

/-- The TypeError raised by indexing a null `getConfig()` result (the
unguarded `Configuration.getConfig()[...]` reads of lines 198 and 452). -/
def nullConfigTypeError : JsError :=
  .typeError "Cannot read properties of null"

/-- The TypeError raised by line 202's
`Configuration.getConfig().stationTemplateUrls.forEach(...)` when the
canonical key is undefined after migration. -/
def undefinedForEachTypeError : JsError :=
  .typeError "Cannot read properties of undefined (reading forEach)"

/-- Embeds `Configuration.getStationTemplateUrls` (lines 192-215) with its
exception behaviour: a null document makes the unguarded index throw a
TypeError; otherwise the legacy-key deprecation warning is emitted when the
legacy key is present, the legacy value is copied unconditionally onto the
canonical key, and the `forEach` throws a TypeError when the canonical key
is still undefined; on success it returns the canonical value, the
(in-memory, never persisted) migrated document, and the emitted
diagnostics. -/
def getStationTemplateUrls (doc : Option ConfigurationData) :
    Except JsError
      (Option (List StationTemplateUrl) × ConfigurationData × List Diagnostic) :=
  match doc with
  | none => .error nullConfigTypeError
  | some d =>
    let warnDiags :=
      if d.stationTemplateURLs.isSome then [legacyStationTemplateUrlsDiagnostic]
      else []
    let d2 := migrateStationTemplateUrls d
    match d2.stationTemplateUrls with
    | none => .error undefinedForEachTypeError
    | some xs => .ok (some xs, d2, warnDiags ++ stationTemplateUrlDiagnostics xs)

/-- The accessor as a caller runs it: `getConfig` first (its load failure
caught and logged inside), then the section logic on the possibly-null
document. -/
def getStationTemplateUrlsRun (cache : Option ConfigurationData) (io : LoadOutcome) :
    Except JsError
      (Option (List StationTemplateUrl) × ConfigurationData × List Diagnostic) :=
  getStationTemplateUrls (getConfig cache io).fst

/-! ### Watch lifecycle and change-event handling (source lines 420-462) -/

/-- Kind of an `fs.watch` event: `'change'` or `'rename'`. -/
inductive WatchEventKind where
  | change
  | rename
deriving DecidableEq, Repr

/-- A watch event: its kind and the associated filename, which `fs.watch`
may deliver as null. -/
structure WatchEvent where
  kind : WatchEventKind
  filename : Option String
deriving DecidableEq, Repr

/-- Observable actions of the watch listener, in execution order. -/
inductive WatcherAction where
  | invalidate
  | invokeReloadCallback
deriving DecidableEq, Repr

/-- The process-wide static state of the `Configuration` class: the cached
document (`configuration`), the watch subscription
(`configurationFileWatcher`, identified by a handle number so that
re-creation would be observable), the next fresh handle number, and whether
`configurationChangeCallback` has been registered. -/
structure StoreState where
  cache : Option ConfigurationData
  watch : Option Nat
  nextHandle : Nat
  onReload : Bool
deriving DecidableEq, Repr

/-- The static state at process start: nothing loaded, no watcher. -/
def initialState (onReload : Bool) : StoreState :=
  { cache := none, watch := none, nextHandle := 0, onReload := onReload }

/-- Embeds the watcher-creation step of `getConfig` (lines 434-436) guarded
by `if (!Configuration.configurationFileWatcher)`:
`getConfigurationFileWatcher` (lines 441-462) wraps `fs.watch` in a
try/catch that logs setup failures and returns undefined, so a failed setup
(ws = false) leaves the handle unset. -/
def createWatcherIfAbsent (s : StoreState) (ws : Bool) : StoreState :=
  match s.watch with
  | some _ => s
  | none =>
    if ws then { s with watch := some s.nextHandle, nextHandle := s.nextHandle + 1 }
    else s

/-- Embeds the state transition of one `getConfig` call (lines 420-439): a
present cache returns immediately; otherwise the load is attempted (the
cache is set only on success, the failure being logged), and THEN — inside
the same `if (!configuration)` block, after the try/catch and regardless of
the load outcome — the watcher is created when none exists. -/
def applyAccess (s : StoreState) (io : LoadOutcome) (ws : Bool) : StoreState :=
  match s.cache with
  | some _ => s
  | none =>
    createWatcherIfAbsent
      (match readConfigurationFile io with
        | .ok d => { s with cache := some d }
        | .error _ => s)
      ws

/-- JavaScript `String.prototype.trim`: strip leading and trailing
whitespace characters. -/
def trimString (s : String) : String :=
  String.mk
    (((s.data.dropWhile Char.isWhitespace).reverse.dropWhile
      Char.isWhitespace).reverse)

/-- The trigger condition of the watch listener (line 444):
`filename?.trim().length > 0 && event === 'change'` — a null filename or a
filename that is blank after trimming does not trigger. -/
def changeEventTriggers (e : WatchEvent) : Bool :=
  (match e.filename with
    | some f => trimString f != ""
    | none => false)
  && (e.kind == WatchEventKind.change)

/-- Embeds the watch listener body (lines 443-453): when the trigger
condition holds, first set `configuration = null` (invalidate), then, if
the reload callback is registered, invoke it; any other event does
nothing.  Returns the new state and the ordered observable actions. -/
def handleFileEvent (s : StoreState) (e : WatchEvent) : StoreState × List WatcherAction :=
  if changeEventTriggers e then
    ({ s with cache := none },
      WatcherAction.invalidate ::
        (if s.onReload then [WatcherAction.invokeReloadCallback] else []))
  else (s, [])

/-- One externally triggered step of the store: a section access (with the
file system's load outcome and the watch-setup outcome) or a watch event. -/
inductive StoreStep where
  | access (io : LoadOutcome) (ws : Bool)
  | fileEvent (e : WatchEvent)
deriving DecidableEq, Repr

/-- Apply one step to the static state. -/
def applyStep (s : StoreState) (st : StoreStep) : StoreState :=
  match st with
  | .access io ws => applyAccess s io ws
  | .fileEvent e => (handleFileEvent s e).fst

/-- Run a sequence of steps from a state. -/
def runSteps (s : StoreState) : List StoreStep → StoreState
  | [] => s
  | st :: rest => runSteps (applyStep s st) rest

/-- The watch-lifecycle invariant: either no watcher has ever been created
(no handle number consumed), or exactly the first handle was created and is
still the active one. -/
def watchInvariant (s : StoreState) : Prop :=
  (s.watch = none ∧ s.nextHandle = 0) ∨ (s.watch = some 0 ∧ s.nextHandle = 1)

/-- A value thrown by the reload callback as seen at the watcher's catch
site: a raw string or a structured Error object. -/
inductive JsThrown where
  | rawString (s : String)
  | errorObject (message : String)
deriving DecidableEq, Repr

/-- Embeds line 449, `typeof error === 'string' ? new Error(error) :
error`: a raw string failure is wrapped into a structured Error; anything
else is re-thrown as is. -/
def wrapReloadFailure : JsThrown → JsThrown
  | .rawString s => .errorObject s
  | .errorObject m => .errorObject m

/-- Whether a thrown value is a structured Error object. -/
def isStructuredError : JsThrown → Bool
  | .errorObject _ => true
  | .rawString _ => false

/-- Embeds lines 447-451: the watcher invokes the registered callback and
re-throws its failure after normalizing it through `wrapReloadFailure`. -/
def runReloadCallback (outcome : Except JsThrown Unit) : Except JsThrown Unit :=
  match outcome with
  | .ok _ => .ok ()
  | .error e => .error (wrapReloadFailure e)

/-! ### Concrete documents and states used by witnesses and
counterexamples -/

/-- A `uiServer.options` sub-object supplying only the host. -/
def hostOnlyOptions : UIServerOptionsSection := { host := some "x", port := none }

/-- A `uiServer` section supplying only `options.host`. -/
def hostOnlySection : UIServerSection :=
  { enabled := none, protocol := none, options := some hostOnlyOptions }

/-- A document whose `uiServer` section overrides only `options.host`. -/
def hostOnlyDoc : ConfigurationData :=
  { emptyConfigurationData with uiServer := some hostOnlySection }

/-- A foreign file URI supplied by a document. -/
def foreignUri : Uri := { scheme := "file", host := "", path := "/anywhere/data.json" }

/-- A JSON-file `performanceStorage` section supplying a foreign URI. -/
def jsonFileStorageSection : StorageSection :=
  { enabled := none, storageType := some StorageType.jsonFile, uri := some foreignUri }

/-- A document with a JSON-file storage section supplying a foreign URI. -/
def jsonFileStorageDoc : ConfigurationData :=
  { emptyConfigurationData with performanceStorage := some jsonFileStorageSection }

/-- A MongoDB connection URI supplied by a document. -/
def mongoUri : Uri := { scheme := "mongodb", host := "srv", path := "/db" }

/-- A MongoDB `performanceStorage` section supplying a URI. -/
def mongoStorageSection : StorageSection :=
  { enabled := none, storageType := some StorageType.mongoDB, uri := some mongoUri }

/-- A document with a MongoDB storage section supplying a URI. -/
def mongoStorageDoc : ConfigurationData :=
  { emptyConfigurationData with performanceStorage := some mongoStorageSection }

/-- A legacy station-template list (entries without the deprecated
per-element key). -/
def legacyTemplates : List StationTemplateUrl :=
  [{ file := "siemens.station-template", numberOfStations := some 2, numberOfStation := none }]

/-- A document carrying only the deprecated pluralized key. -/
def legacyOnlyDoc : ConfigurationData :=
  { emptyConfigurationData with stationTemplateURLs := some legacyTemplates }

/-- A document carrying both the canonical key (an empty list) and the
deprecated key. -/
def bothKeysDoc : ConfigurationData :=
  { emptyConfigurationData with
      stationTemplateUrls := some []
      stationTemplateURLs := some legacyTemplates }

/-- The document `bothKeysDoc` after the unconditional in-memory copy of
the legacy value onto the canonical key. -/
def bothKeysMigratedDoc : ConfigurationData :=
  { bothKeysDoc with stationTemplateUrls := some legacyTemplates }

/-- A `worker` section selecting the dynamic pool. -/
def dynamicWorkerSection : WorkerSection :=
  { processType := some WorkerProcessType.dynamicPool
    startDelay := none
    elementsPerWorker := none
    elementStartDelay := none
    poolMinSize := none
    poolMaxSize := none
    poolStrategy := none }

/-- A document selecting the dynamic worker pool. -/
def dynamicWorkerDoc : ConfigurationData :=
  { emptyConfigurationData with worker := some dynamicWorkerSection }

/-- A document setting `logMaxSize` but not `logMaxFiles`. -/
def logSizeOnlyDoc : ConfigurationData :=
  { emptyConfigurationData with logMaxSize := some 1024 }

/-- The same document with `logMaxFiles` additionally present. -/
def logSizeAndFilesDoc : ConfigurationData :=
  { logSizeOnlyDoc with logMaxFiles := some 7 }

/-- A store state that already holds watch handle 5 with an absent cache. -/
def watchedState : StoreState :=
  { cache := none, watch := some 5, nextHandle := 6, onReload := false }

/-- A store state with a loaded document, an active watcher, and a
registered reload callback. -/
def loadedState : StoreState :=
  { cache := some emptyConfigurationData, watch := some 0, nextHandle := 1, onReload := true }

/-- A content-change watch event with a non-blank filename. -/
def changeEvent : WatchEvent :=
  { kind := WatchEventKind.change, filename := some "config.json" }

/-- A content-change watch event whose filename is non-empty but blank
after trimming. -/
def blankFilenameEvent : WatchEvent :=
  { kind := WatchEventKind.change, filename := some " " }

/-! ### Theorems -/

/-- C1 (code bug): evaluating `getUIServer` at a document whose `uiServer`
section supplies only `options.host` shows the shallow just-merge replacing
the `options` object wholesale — the host is the document's, but the default
port is lost (absent), contradicting the deep-merge contract the spec states
for this section and the non-optional `port` of the declared
`UIServerConfiguration` type. -/
theorem getUIServer_shallow_replaces_options :
    (getUIServer hostOnlyDoc false none).options.host = some "x"
    ∧ (getUIServer hostOnlyDoc false none).options.port = none := by
  constructor <;> rfl

/-- C5: whenever the cloud-environment predicate is true and the `PORT`
environment variable is set, `getUIServer` returns options with no host
field and with the port forced to the environment value, for every document
content. -/
theorem getUIServer_cloud_override (d : ConfigurationData) (p : Nat) :
    (getUIServer d true (some p)).options.host = none
    ∧ (getUIServer d true (some p)).options.port = some (JsNumber.num p) := by
  constructor <;> simp [getUIServer, parseIntEnv]

/-- C3: for every document whose `performanceStorage` section has JSON-file
type and supplies a URI, the returned URI is rebuilt from only the path
component of the supplied URI, joined to the fixed base directory — the
supplied scheme, host and directory root are discarded. -/
theorem getPerformanceStorage_reroot (d : ConfigurationData)
    (s : StorageSection) (u : Uri)
    (hs : d.performanceStorage = some s)
    (ht : s.storageType = some StorageType.jsonFile)
    (hu : s.uri = some u) :
    (getPerformanceStorage d).uri = "file://" ++ joinPath baseDirectory u.path := by
  simp [getPerformanceStorage, hs, ht, hu, buildPerformanceUriFilePath]

/-- Witness for C3 at a concrete JSON-file section with a foreign URI. -/
theorem getPerformanceStorage_reroot_witness :
    (getPerformanceStorage jsonFileStorageDoc).uri =
      "file://" ++ joinPath baseDirectory "/anywhere/data.json" :=
  getPerformanceStorage_reroot jsonFileStorageDoc jsonFileStorageSection
    foreignUri rfl rfl rfl

/-- C9: the re-rooting applies only to the JSON-file storage type — for
every document whose `performanceStorage` section supplies a non-JSON-file
type together with a URI, the returned URI is the supplied one verbatim
(shallow merge, no rewriting). -/
theorem getPerformanceStorage_verbatim (d : ConfigurationData)
    (s : StorageSection) (t : StorageType) (u : Uri)
    (hs : d.performanceStorage = some s)
    (ht : s.storageType = some t)
    (hne : t ≠ StorageType.jsonFile)
    (hu : s.uri = some u) :
    (getPerformanceStorage d).uri = renderUri u := by
  cases t with
  | jsonFile => exact absurd rfl hne
  | sqlite => simp [getPerformanceStorage, hs, ht, hu]
  | mongoDB => simp [getPerformanceStorage, hs, ht, hu]

/-- Witness for C9 at a concrete MongoDB section with a URI. -/
theorem getPerformanceStorage_verbatim_witness :
    (getPerformanceStorage mongoStorageDoc).uri = renderUri mongoUri :=
  getPerformanceStorage_verbatim mongoStorageDoc mongoStorageSection
    StorageType.mongoDB mongoUri rfl rfl (by decide) rfl

/-- C2 counterexample: with an empty cache and a not-found load failure,
`getStationTemplateUrls` does not return normally — the unguarded index on
the null document throws a TypeError, refuting the never-raises claim. -/
theorem stationTemplateUrls_raises_on_null_config :
    getStationTemplateUrlsRun none (LoadOutcome.failure FileErrorKind.notFound) =
      Except.error nullConfigTypeError := rfl

/-- C2 amended: only the physical load step inside `getConfig` can fail and
that failure is caught, classified and logged, degrading to a null document
— but the section accessor itself then raises: `getStationTemplateUrls`
throws a TypeError on a null document and on a canonical key still missing
after migration, and returns normally exactly when the loaded document
carries the canonical or legacy key. -/
theorem getStationTemplateUrls_error_paths (cache : Option ConfigurationData)
    (io : LoadOutcome) :
    (∀ e, cache = none → io = LoadOutcome.failure e →
      (getConfig cache io).fst = none
        ∧ (getConfig cache io).snd = [handleFileException e])
    ∧ ((getConfig cache io).fst = none →
        getStationTemplateUrlsRun cache io = Except.error nullConfigTypeError)
    ∧ (∀ d xs, (getConfig cache io).fst = some d →
        (migrateStationTemplateUrls d).stationTemplateUrls = some xs →
        getStationTemplateUrlsRun cache io =
          Except.ok (some xs, migrateStationTemplateUrls d,
            (if d.stationTemplateURLs.isSome then [legacyStationTemplateUrlsDiagnostic]
              else []) ++ stationTemplateUrlDiagnostics xs))
    ∧ (∀ d, (getConfig cache io).fst = some d →
        (migrateStationTemplateUrls d).stationTemplateUrls = none →
        getStationTemplateUrlsRun cache io = Except.error undefinedForEachTypeError) := by
  refine ⟨?_, ?_, ?_, ?_⟩
  · intro e hc hio
    subst hc; subst hio
    exact ⟨rfl, rfl⟩
  · intro habs
    simp [getStationTemplateUrlsRun, habs, getStationTemplateUrls]
  · intro d xs hd hx
    simp [getStationTemplateUrlsRun, hd, getStationTemplateUrls, hx]
  · intro d hd hx
    simp [getStationTemplateUrlsRun, hd, getStationTemplateUrls, hx]

/-- Witness for C2 (amended) at concrete inputs: a failed load degrades to a
null document with the classified message logged and the accessor then
raises; a loaded document carrying the legacy key returns normally. -/
theorem getStationTemplateUrls_error_paths_witness :
    (getConfig none (LoadOutcome.failure FileErrorKind.notFound)).fst = none
    ∧ (getConfig none (LoadOutcome.failure FileErrorKind.notFound)).snd =
        [handleFileException FileErrorKind.notFound]
    ∧ getStationTemplateUrlsRun (some legacyOnlyDoc)
        (LoadOutcome.success emptyConfigurationData) =
      Except.ok (some legacyTemplates, migrateStationTemplateUrls legacyOnlyDoc,
        (if legacyOnlyDoc.stationTemplateURLs.isSome
          then [legacyStationTemplateUrlsDiagnostic] else [])
          ++ stationTemplateUrlDiagnostics legacyTemplates) := by
  have h := getStationTemplateUrls_error_paths none
    (LoadOutcome.failure FileErrorKind.notFound)
  have h2 := getStationTemplateUrls_error_paths (some legacyOnlyDoc)
    (LoadOutcome.success emptyConfigurationData)
  exact ⟨(h.1 FileErrorKind.notFound rfl rfl).1,
    (h.1 FileErrorKind.notFound rfl rfl).2,
    h2.2.2.1 legacyOnlyDoc legacyTemplates rfl rfl⟩

/-- C4 counterexample: on a document where the canonical key is present (an
empty list) alongside the legacy key, the code still copies — the returned
document has the canonical key overwritten with the legacy value — refuting
the copy-only-when-canonical-absent clause. -/
theorem stationTemplateUrls_copy_overwrites_canonical :
    bothKeysDoc.stationTemplateUrls = some []
    ∧ getStationTemplateUrls (some bothKeysDoc) =
        Except.ok (some legacyTemplates, bothKeysMigratedDoc,
          [legacyStationTemplateUrlsDiagnostic])
    ∧ bothKeysMigratedDoc ≠ bothKeysDoc := by
  refine ⟨rfl, rfl, by decide⟩

/-- Helper: the per-element `forEach` diagnostics all carry the
`numberOfStation` key, so none of them matches the legacy
`stationTemplateURLs` key. -/
theorem stationTemplateUrlDiagnostics_no_legacy_key (xs : List StationTemplateUrl) :
    (stationTemplateUrlDiagnostics xs).filter
      (fun g => g.key == "stationTemplateURLs") = [] := by
  induction xs with
  | nil => rfl
  | cons x t ih =>
    by_cases hx : x.numberOfStation.isSome <;>
      simp [stationTemplateUrlDiagnostics, List.filter_cons, hx] at ih ⊢ <;>
      exact ih

/-- C4 amended: whenever the legacy `stationTemplateURLs` key is present —
regardless of the canonical key, which a present legacy value overwrites —
the accessor copies the legacy value onto the canonical key of the
in-memory document, returns it under the canonical name, and the
`stationTemplateURLs` deprecation diagnostic fires exactly once per call. -/
theorem getStationTemplateUrls_unconditional_migration (d : ConfigurationData)
    (xs : List StationTemplateUrl)
    (hl : d.stationTemplateURLs = some xs) :
    getStationTemplateUrls (some d) =
      Except.ok (some xs, { d with stationTemplateUrls := some xs },
        legacyStationTemplateUrlsDiagnostic :: stationTemplateUrlDiagnostics xs)
    ∧ ((legacyStationTemplateUrlsDiagnostic :: stationTemplateUrlDiagnostics xs).filter
        (fun g => g.key == "stationTemplateURLs")).length = 1 := by
  constructor
  · simp [getStationTemplateUrls, migrateStationTemplateUrls, hl]
  · simp [List.filter_cons, legacyStationTemplateUrlsDiagnostic,
      stationTemplateUrlDiagnostics_no_legacy_key xs]

/-- Witness for C4 (amended) at a concrete legacy-only document. -/
theorem getStationTemplateUrls_unconditional_migration_witness :
    getStationTemplateUrls (some legacyOnlyDoc) =
      Except.ok (some legacyTemplates,
        { legacyOnlyDoc with stationTemplateUrls := some legacyTemplates },
        legacyStationTemplateUrlsDiagnostic :: stationTemplateUrlDiagnostics legacyTemplates)
    ∧ ((legacyStationTemplateUrlsDiagnostic ::
        stationTemplateUrlDiagnostics legacyTemplates).filter
        (fun g => g.key == "stationTemplateURLs")).length = 1 :=
  getStationTemplateUrls_unconditional_migration legacyOnlyDoc legacyTemplates rfl

/-- C8 (code bug): evaluating the logging accessors shows `getLogMaxSize`
keyed on the `logMaxFiles` key — with `logMaxSize` present but `logMaxFiles`
absent it returns `false`, not the document's 1024; adding the unrelated
`logMaxFiles` key flips the result to 1024 although `logMaxSize` is
unchanged — refuting per-key independence. -/
theorem logMaxSize_keyed_on_logMaxFiles :
    getLogMaxSize logSizeOnlyDoc = LogSettingResult.boolFalse
    ∧ getLogMaxFiles logSizeOnlyDoc = LogSettingResult.boolFalse
    ∧ getLogMaxSize logSizeAndFilesDoc = LogSettingResult.num 1024
    ∧ logSizeOnlyDoc.logMaxSize = logSizeAndFilesDoc.logMaxSize := by
  exact ⟨rfl, rfl, rfl, rfl⟩

/-- C10: the dynamic-pool predicate is stronger than the pool-in-use
predicate — whenever `workerDynamicPoolInUse` holds of a document,
`workerPoolInUse` holds of it too, both reading the same `getWorker`
process type. -/
theorem workerDynamicPool_implies_pool (d : ConfigurationData)
    (h : workerDynamicPoolInUse d = true) : workerPoolInUse d = true := by
  have h2 : (getWorker d).processType = WorkerProcessType.dynamicPool := by
    simpa [workerDynamicPoolInUse] using h
  simp only [workerPoolInUse, h2]
  decide

/-- Witness for C10 at a concrete document selecting the dynamic pool. -/
theorem workerDynamicPool_implies_pool_witness :
    workerDynamicPoolInUse dynamicWorkerDoc = true
    ∧ workerPoolInUse dynamicWorkerDoc = true :=
  ⟨by decide, workerDynamicPool_implies_pool dynamicWorkerDoc (by decide)⟩

/-- C6 counterexample: one access from the initial state whose load fails
(file not found) but whose watch setup succeeds leaves the watcher created
(handle 0) while the cache is still absent — the watcher is not created
only on successful loads. -/
theorem watch_created_despite_failed_load :
    runSteps (initialState false)
      [StoreStep.access (LoadOutcome.failure FileErrorKind.notFound) true] =
      { cache := none, watch := some 0, nextHandle := 1, onReload := false } := rfl

/-- Helper: an existing watch subscription survives every step unchanged —
in particular it is not recreated while the cached document is absent. -/
theorem watch_persists (s : StoreState) (st : StoreStep) (k : Nat)
    (h : s.watch = some k) : (applyStep s st).watch = some k := by
  cases st with
  | access io ws =>
    cases hc : s.cache with
    | some d => simp [applyStep, applyAccess, hc, h]
    | none =>
      cases io <;>
        simp [applyStep, applyAccess, hc, readConfigurationFile,
          createWatcherIfAbsent, h]
  | fileEvent e =>
    by_cases he : changeEventTriggers e <;> simp [applyStep, handleFileEvent, he, h]

/-- Helper: the watch field changes only on an access that found no active
watcher and an absent cache and whose watch setup succeeded. -/
theorem watch_created_only_on_access (s : StoreState) (st : StoreStep)
    (h : (applyStep s st).watch ≠ s.watch) :
    s.watch = none ∧ s.cache = none ∧ ∃ io, st = StoreStep.access io true := by
  cases st with
  | access io ws =>
    cases hc : s.cache with
    | some d => simp [applyStep, applyAccess, hc] at h
    | none =>
      cases hw : s.watch with
      | some w =>
        exfalso
        apply h
        cases io <;>
          simp [applyStep, applyAccess, hc, hw, readConfigurationFile,
            createWatcherIfAbsent]
      | none =>
        cases hws : ws with
        | false =>
          exfalso
          apply h
          cases io <;>
            simp [applyStep, applyAccess, hc, hw, hws, readConfigurationFile,
              createWatcherIfAbsent]
        | true => exact ⟨rfl, rfl, io, rfl⟩
  | fileEvent e =>
    exfalso
    apply h
    by_cases he : changeEventTriggers e <;> simp [applyStep, handleFileEvent, he]

/-- Helper: every step preserves the watch-lifecycle invariant. -/
theorem watchInvariant_step (s : StoreState) (st : StoreStep)
    (h : watchInvariant s) : watchInvariant (applyStep s st) := by
  rcases h with ⟨hw, hn⟩ | ⟨hw, hn⟩
  · cases st with
    | access io ws =>
      cases hc : s.cache with
      | some d =>
        left
        simp [applyStep, applyAccess, hc, hw, hn]
      | none =>
        cases hws : ws with
        | false =>
          left
          cases io <;>
            simp [applyStep, applyAccess, hc, readConfigurationFile,
              createWatcherIfAbsent, hw, hn]
        | true =>
          right
          cases io <;>
            simp [applyStep, applyAccess, hc, readConfigurationFile,
              createWatcherIfAbsent, hw, hn]
    | fileEvent e =>
      left
      by_cases he : changeEventTriggers e <;>
        simp [applyStep, handleFileEvent, he, hw, hn]
  · right
    refine ⟨watch_persists s st 0 hw, ?_⟩
    cases st with
    | access io ws =>
      cases hc : s.cache with
      | some d => simp [applyStep, applyAccess, hc, hn]
      | none =>
        cases io <;>
          simp [applyStep, applyAccess, hc, hw, hn, readConfigurationFile,
            createWatcherIfAbsent]
    | fileEvent e =>
      by_cases he : changeEventTriggers e <;>
        simp [applyStep, handleFileEvent, he, hn]

/-- Helper: the watch-lifecycle invariant holds along every run. -/
theorem watchInvariant_runSteps (steps : List StoreStep) (s : StoreState)
    (h : watchInvariant s) : watchInvariant (runSteps s steps) := by
  induction steps generalizing s with
  | nil => exact h
  | cons st rest ih => exact ih (applyStep s st) (watchInvariant_step s st h)

/-- C6 amended: the watch subscription is a per-process singleton created on
the first access that finds the cache absent and no active watcher and whose
setup succeeds — regardless of the load outcome: an existing handle survives
every step (never recreated, in particular not while the cache is absent),
the watch field changes only on such an access, and every run from the
initial state ends with at most the first handle active. -/
theorem watch_singleton (s : StoreState) (st : StoreStep)
    (steps : List StoreStep) (b : Bool) :
    (∀ k, s.watch = some k → (applyStep s st).watch = some k)
    ∧ ((applyStep s st).watch ≠ s.watch →
        s.watch = none ∧ s.cache = none ∧ ∃ io, st = StoreStep.access io true)
    ∧ ((runSteps (initialState b) steps).watch = none
        ∨ (runSteps (initialState b) steps).watch = some 0) := by
  refine ⟨fun k hk => watch_persists s st k hk,
    fun h => watch_created_only_on_access s st h, ?_⟩
  rcases watchInvariant_runSteps steps (initialState b) (Or.inl ⟨rfl, rfl⟩) with
    ⟨hw, _⟩ | ⟨hw, _⟩
  · exact Or.inl hw
  · exact Or.inr hw

/-- Witness for C6 (amended): a state already holding handle 5 keeps it
across a successful-load access, and a run of one access from the initial
state ends with at most the first handle active. -/
theorem watch_singleton_witness :
    (applyStep watchedState
      (StoreStep.access (LoadOutcome.success emptyConfigurationData) true)).watch = some 5
    ∧ ((runSteps (initialState false)
        [StoreStep.access (LoadOutcome.success emptyConfigurationData) true]).watch = none
      ∨ (runSteps (initialState false)
        [StoreStep.access (LoadOutcome.success emptyConfigurationData) true]).watch = some 0) := by
  have h := watch_singleton watchedState
    (StoreStep.access (LoadOutcome.success emptyConfigurationData) true)
    [StoreStep.access (LoadOutcome.success emptyConfigurationData) true] false
  exact ⟨h.1 5 rfl, h.2.2⟩

/-- C7 counterexample: a content-change event whose filename is the
non-empty string of one space triggers nothing — the cache of a loaded
state is not invalidated and the registered callback is not invoked,
because the listener requires a filename that is non-blank after
trimming. -/
theorem watcher_ignores_blank_filename :
    handleFileEvent loadedState blankFilenameEvent = (loadedState, [])
    ∧ loadedState.cache = some emptyConfigurationData
    ∧ loadedState.onReload = true
    ∧ blankFilenameEvent.kind = WatchEventKind.change
    ∧ blankFilenameEvent.filename = some " " := by
  exact ⟨rfl, rfl, rfl, rfl, rfl⟩

/-- C7 amended: on a content-change event whose filename is non-blank after
trimming, the listener first makes the invalidation visible (the resulting
state has an absent cached document and the invalidate action heads the
action sequence) and only then invokes the reload callback, exactly when one
is registered; a callback rejecting with a raw string has that string
wrapped into a structured Error before being re-thrown. -/
theorem watcher_invalidate_then_reload (s : StoreState) (e : WatchEvent)
    (f : String) (hk : e.kind = WatchEventKind.change)
    (hf : e.filename = some f) (ht : trimString f ≠ "") :
    (handleFileEvent s e).fst.cache = none
    ∧ (handleFileEvent s e).snd =
        WatcherAction.invalidate ::
          (if s.onReload then [WatcherAction.invokeReloadCallback] else [])
    ∧ (∀ str, runReloadCallback (Except.error (JsThrown.rawString str)) =
        Except.error (JsThrown.errorObject str))
    ∧ (∀ v, isStructuredError (wrapReloadFailure v) = true) := by
  have htrig : changeEventTriggers e = true := by
    simp [changeEventTriggers, hf, hk, ht]
  refine ⟨?_, ?_, fun str => rfl, fun v => ?_⟩
  · simp [handleFileEvent, htrig]
  · simp [handleFileEvent, htrig]
  · cases v <;> rfl

/-- Witness for C7 (amended) at a concrete change event on a
callback-free state. -/
theorem watcher_invalidate_then_reload_witness :
    (handleFileEvent watchedState changeEvent).fst.cache = none
    ∧ (handleFileEvent watchedState changeEvent).snd = [WatcherAction.invalidate]
    ∧ runReloadCallback (Except.error (JsThrown.rawString "boom")) =
        Except.error (JsThrown.errorObject "boom") := by
  have h := watcher_invalidate_then_reload watchedState changeEvent
    "config.json" rfl rfl (by decide)
  exact ⟨h.1, h.2.1, h.2.2.1 "boom"⟩

end Configuration
